import Mathlib

/-
Verification development for the `ratios` repository's edge caching/proxy
layer (`functions/api/alpha/index.js`, final revision: the "v3" cache
namespace).  The JavaScript handler is shallowly embedded: parsed JSON
bodies become an inductive `Json` type with JavaScript truthiness, the
upstream fetch results and the random backoff draws are inputs, the
Cloudflare cache is an explicit association list threaded through the
handler, and the in-flight single-flight registry is a small state machine.
-/

namespace RatiosProxy

/-- Parsed JSON values, as produced by `JSON.parse` in `fetchOnce`. -/
inductive Json where
  | null : Json
  | bool : Bool → Json
  | num : Int → Json
  | str : String → Json
  | arr : List Json → Json
  | obj : List (String × Json) → Json

/-- JavaScript truthiness of a parsed JSON value. -/
def Json.truthy : Json → Bool
  | .null => false
  | .bool b => b
  | .num n => n != 0
  | .str s => s != ""
  | .arr _ => true
  | .obj _ => true

/-- The guard `!data || typeof data !== "object"` in `avProblem` passes
exactly for arrays and objects (JSON `null` is falsy, and the other
primitives have a non-object `typeof`). -/
def Json.isObjectLike : Json → Bool
  | .arr _ => true
  | .obj _ => true
  | _ => false

/-- Property access `data[k]`: a field lookup on objects, `undefined`
(here `none`) on every other JSON value. -/
def Json.get (j : Json) (k : String) : Option Json :=
  match j with
  | .obj fs => fs.lookup k
  | _ => none

/-- Truthiness of `data[k]`, as tested by `if (data.Note)` etc. -/
def truthyField (d : Json) (k : String) : Bool :=
  match d.get k with
  | some v => v.truthy
  | none => false

/-- The field value used as the problem message (`data.Note`, ...). -/
def fieldOr (d : Json) (k : String) : Json :=
  (d.get k).getD Json.null

/-- `data` truthiness for an optional parse result (`null` when the body
failed to parse, which is falsy). -/
def dataTruthy : Option Json → Bool
  | some j => j.truthy
  | none => false

/-- The `ALLOWED` set of statement kinds. -/
def ALLOWED : List String :=
  ["INCOME_STATEMENT", "BALANCE_SHEET", "CASH_FLOW", "OVERVIEW"]

/-- Per-kind freshness TTLs (final revision: 72h for every kind). -/
def TTL_MAP (fn : String) : Option Nat :=
  if fn = "INCOME_STATEMENT" then some (86400 * 3)
  else if fn = "BALANCE_SHEET" then some (86400 * 3)
  else if fn = "CASH_FLOW" then some (86400 * 3)
  else if fn = "OVERVIEW" then some (86400 * 3)
  else none

def DEFAULT_TTL : Nat := 86400 * 3

def STALE_WHILE_REVALIDATE : Nat := 86400

/-- `TTL_MAP[fn] ?? DEFAULT_TTL`. -/
def ttlFor (fn : String) : Nat := (TTL_MAP fn).getD DEFAULT_TTL

/-- The result record of `avProblem`: `{ status, msg, kind }`. -/
structure Problem where
  status : Nat
  msg : Json
  kind : String

/-- `avProblem(data, status)` of the final revision: classify a provider
response.  Priority: non-object bodies are never classified; then HTTP 429;
then the embedded `Note` / `Information` throttle notices; then the
provider `Error Message`; otherwise no problem. -/
def avProblem (data : Option Json) (status : Nat) : Option Problem :=
  match data with
  | none => none
  | some d =>
    if !d.isObjectLike then none
    else if status = 429 then some ⟨429, Json.str "rate_limited", "429"⟩
    else if truthyField d "Note" then some ⟨429, fieldOr d "Note", "note"⟩
    else if truthyField d "Information" then some ⟨429, fieldOr d "Information", "info"⟩
    else if truthyField d "Error Message" then some ⟨400, fieldOr d "Error Message", "error"⟩
    else none

/-- `cacheKeyStr(parts)`: the v3 cache key namespace. -/
def cacheKeyStr (parts : List String) : String :=
  "https://alpha-proxy/v3/" ++ String.intercalate "/" parts

/-- The result of `fetchOnce`: HTTP status, raw text, and the parse result
(`none` when `JSON.parse` threw). -/
structure Upstream where
  status : Nat
  txt : String
  data : Option Json

/-- `r.ok`: status in the 200-299 range. -/
def Upstream.ok (u : Upstream) : Bool :=
  decide (200 ≤ u.status) && decide (u.status ≤ 299)

/-- An HTTP response: status, JSON body (bodies are JSON-rendered at the
network boundary) and headers. -/
structure Resp where
  status : Nat
  body : Json
  headers : List (String × String)

/-- `cors(origin)`. -/
def cors (origin : String) : List (String × String) :=
  [("Access-Control-Allow-Origin", if origin = "" then "*" else origin),
   ("Access-Control-Allow-Methods", "GET, OPTIONS"),
   ("Access-Control-Allow-Headers", "Content-Type"),
   ("Vary", "Origin")]

/-- `json(obj, status, origin, extra)`. -/
def json (obj : Json) (status : Nat) (origin : String)
    (extra : List (String × String)) : Resp :=
  ⟨status, obj, ("content-type", "application/json; charset=utf-8") :: cors origin ++ extra⟩

/-- The `cache-control` value used by `wrapOk` and the cache-hit replay. -/
def swrCacheControl (ttl : Nat) : String :=
  "public, max-age=" ++ toString ttl ++ ", stale-while-revalidate="
    ++ toString STALE_WHILE_REVALIDATE

/-- `wrapOk(body, ttl, origin, headersExtra)`: a 200 with freshness and
stale-while-revalidate windows. -/
def wrapOk (body : Json) (ttl : Nat) (origin : String)
    (extra : List (String × String)) : Resp :=
  ⟨200, body,
    [("content-type", "application/json; charset=utf-8"),
     ("cache-control", swrCacheControl ttl)] ++ cors origin ++ extra⟩

/-- `wrap429(detail, origin, kind)`: the throttle/failure response, always
HTTP 429 with a `Retry-After` hint. -/
def wrap429 (detail : Json) (origin : String) (kind : String) : Resp :=
  json (Json.obj [("error", Json.str "Alpha Vantage"), ("detail", detail),
    ("kind", Json.str kind)]) 429 origin [("Retry-After", "65")]

/-- The Cloudflare cache, keyed by the v3 key strings.  `put` fully
replaces any prior entry (last-writer-wins), modelled by prepending and
looking up the newest entry first. -/
abbrev Cache := List (String × Resp)

def cacheMatch (c : Cache) (k : String) : Option Resp := c.lookup k

def cachePut (c : Cache) (k : String) (v : Resp) : Cache := (k, v) :: c

/-- `headers.set(k, v)`: replace or append a header. -/
def setHeader (hs : List (String × String)) (k v : String) :
    List (String × String) :=
  (hs.filter fun e => e.1 ≠ k) ++ [(k, v)]

/-- Replay of a cache hit: `new Response(hit.body, hit)` with the
`cache-control` and `x-proxy-cache: HIT` headers set. -/
def hitResponse (hit : Resp) (ttl : Nat) : Resp :=
  ⟨hit.status, hit.body,
    setHeader (setHeader hit.headers "cache-control" (swrCacheControl ttl))
      "x-proxy-cache" "HIT"⟩

def applyPut (cache : Cache) (put : Option (String × Resp)) : Cache :=
  match put with
  | some kv => cachePut cache kv.1 kv.2
  | none => cache

/-- Outcome of the per-function producer closure: the response, the cache
write it performed (if any), how many upstream attempts it made, and how
long it waited between them. -/
structure SingleResult where
  resp : Resp
  put : Option (String × Resp)
  attempts : Nat
  waitedMs : Option Nat

/-- The tail of the per-function producer, applied to the attempt whose
result is surfaced: `if (ok && !problem && data)` succeed, cache unless
`nocache`, else `wrap429` with the problem's message and kind (or the
generic `Upstream <status>` / `upstream` when no problem was classified). -/
def finalizeAttempt (u : Upstream) (problem : Option Problem)
    (fn symbol origin : String) (nocache : Bool) (ttl : Nat) :
    Resp × Option (String × Resp) :=
  if u.ok && problem.isNone && dataTruthy u.data then
    let out := wrapOk (u.data.getD Json.null) ttl origin [("x-proxy-cache", "MISS")]
    (out, if nocache then none else some (cacheKeyStr [fn, symbol], out))
  else
    (wrap429
      (match problem with
        | some pr => pr.msg
        | none => Json.str ("Upstream " ++ toString u.status))
      origin
      (match problem with
        | some pr => pr.kind
        | none => "upstream"), none)

/-- The per-function producer closure (the argument of `singleFlight` in the
single-statement path): try once; if `avProblem` classified any problem,
wait `1000 + Math.floor(Math.random() * 500)` ms (the draw is the input
`r`, reduced mod 500) and try exactly once more, surfacing the second
attempt's outcome as-is. -/
def singleProducer (fn symbol origin : String) (nocache : Bool) (ttl : Nat)
    (a1 a2 : Upstream) (r : Nat) : SingleResult :=
  match avProblem a1.data a1.status with
  | none =>
      let fin := finalizeAttempt a1 none fn symbol origin nocache ttl
      ⟨fin.1, fin.2, 1, none⟩
  | some _ =>
      let fin := finalizeAttempt a2 (avProblem a2.data a2.status) fn symbol origin nocache ttl
      ⟨fin.1, fin.2, 2, some (1000 + r % 500)⟩

/-- One round of the four bundle legs, in the order the code fans out:
income statement, balance sheet, cash flow, overview. -/
structure Round where
  income : Upstream
  balance : Upstream
  cashflow : Upstream
  overview : Upstream

def Round.toList (rd : Round) : List Upstream :=
  [rd.income, rd.balance, rd.cashflow, rd.overview]

/-- `avProblem(p.data, p.status)` is non-null for this leg. -/
def legProblem (u : Upstream) : Bool := (avProblem u.data u.status).isSome

/-- `p.ok && !avProblem(p.data, p.status) && p.data`: the leg is clean. -/
def legClean (u : Upstream) : Bool :=
  u.ok && (avProblem u.data u.status).isNone && dataTruthy u.data

/-- Outcome of the bundle producer closure. -/
structure BundleResult where
  resp : Resp
  put : Option (String × Resp)
  rounds : Nat
  waitedMs : Option Nat

/-- The bundle producer closure: fetch all four legs; if any leg classifies
as a problem, wait `1200 + Math.floor(Math.random() * 600)` ms once and
re-fetch all four; succeed (and cache unless `nocache`) only when every
final leg is clean, else `wrap429` with kind `bundle` and no cache write. -/
def bundleProducer (symbol origin : String) (nocache : Bool)
    (r1 r2 : Round) (r : Nat) : BundleResult :=
  let throttled := r1.toList.any legProblem
  let parts := if throttled then r2 else r1
  let rounds := if throttled then 2 else 1
  let waited : Option Nat := if throttled then some (1200 + r % 600) else none
  if parts.toList.all legClean then
    let payload := Json.obj
      [("income_statement", parts.income.data.getD Json.null),
       ("balance_sheet", parts.balance.data.getD Json.null),
       ("cash_flow", parts.cashflow.data.getD Json.null),
       ("overview", parts.overview.data.getD Json.null)]
    let out := wrapOk payload DEFAULT_TTL origin [("x-proxy-cache", "MISS-BUNDLE")]
    ⟨out, if nocache then none else some (cacheKeyStr ["BUNDLE", symbol], out),
      rounds, waited⟩
  else
    ⟨wrap429 (Json.str "Bundle throttled and no cached copy") origin "bundle",
      none, rounds, waited⟩

/-- `toUpperCase()`, written structurally over the character list so that
concrete instances evaluate inside proofs. -/
def jsToUpper (s : String) : String := String.mk (s.data.map Char.toUpper)

/-- The inbound request's query parameters and origin. -/
structure Params where
  origin : String
  fn? : Option String
  bundle? : Option String
  symbol? : Option String
  nocache? : Option String

/-- The environment bindings; `apiKey` is `env.ALPHA_API_KEY` (absent or
empty are both falsy). -/
structure Env where
  apiKey : Option String

def envHasKey (e : Env) : Bool :=
  match e.apiKey with
  | some s => s != ""
  | none => false

/-- The nondeterministic externals of one request: the two single-statement
attempts, the two bundle rounds, and the two random backoff draws. -/
structure Net where
  s1 : Upstream
  s2 : Upstream
  b1 : Round
  b2 : Round
  rs : Nat
  rb : Nat

/-- Bundle mode (`bundle=1`): serve the cached bundle unless `nocache`,
else run the bundle producer (under single-flight, which for one caller
invokes it once) and apply its cache write. -/
def bundleMode (symbol origin : String) (nocache : Bool) (cache : Cache)
    (net : Net) : Resp × Cache :=
  let ttl := DEFAULT_TTL
  let bundleKey := cacheKeyStr ["BUNDLE", symbol]
  match (if nocache then none else cacheMatch cache bundleKey) with
  | some hit => (hitResponse hit ttl, cache)
  | none =>
      let res := bundleProducer symbol origin nocache net.b1 net.b2 net.rb
      (res.resp, applyPut cache res.put)

/-- Per-function mode: serve the cached statement unless `nocache`, else
run the single producer (under single-flight) and apply its cache write. -/
def singleMode (fn symbol origin : String) (nocache : Bool) (cache : Cache)
    (net : Net) : Resp × Cache :=
  let ttl := ttlFor fn
  let cacheKey := cacheKeyStr [fn, symbol]
  match (if nocache then none else cacheMatch cache cacheKey) with
  | some hit => (hitResponse hit ttl, cache)
  | none =>
      let res := singleProducer fn symbol origin nocache ttl net.s1 net.s2 net.rs
      (res.resp, applyPut cache res.put)

/-- `onRequestGet` of the final revision: decode the query parameters,
require the credential (500) and a symbol (400), branch to bundle mode on
`bundle=1`, require a known `function` (400) otherwise, and run the
per-function path. -/
def onRequestGet (p : Params) (env : Env) (cache : Cache) (net : Net) :
    Resp × Cache :=
  let origin := p.origin
  let fn := jsToUpper (p.fn?.getD "")
  let bundle := p.bundle? == some "1"
  let symbol := jsToUpper (p.symbol?.getD "")
  let nocache := p.nocache? == some "1"
  if !(envHasKey env) then
    (json (Json.obj [("error", Json.str "ALPHA_API_KEY is not configured.")]) 500 origin [], cache)
  else if symbol == "" then
    (json (Json.obj [("error", Json.str "Bad request: missing symbol.")]) 400 origin [], cache)
  else if bundle then
    bundleMode symbol origin nocache cache net
  else if fn == "" || !(ALLOWED.contains fn) then
    (json (Json.obj [("error", Json.str "Bad request: missing/invalid function.")]) 400 origin [], cache)
  else
    singleMode fn symbol origin nocache cache net

/-! ## Single-flight coordinator (`singleFlight`, `inflight` map)

The in-PoP registry `inflight : Map<string, Promise<Response>>` is modelled
as an association list from key to the pending promise's eventual outcome
(`Except` for fulfilment vs rejection).  Callers within one execution
context interleave only at await points, so arrivals are processed
sequentially; every caller's received value goes through `.clone()`,
modelled by tagging the shared result with a per-caller copy id. -/

abbrev SFMap := List (String × Except String Resp)

/-- `inflight.has(key)`. -/
def sfHas (m : SFMap) (k : String) : Bool := (m.lookup k).isSome

/-- `inflight.get(key)`. -/
def sfGet (m : SFMap) (k : String) : Option (Except String Resp) := m.lookup k

/-- `inflight.set(key, p)` (replaces any prior entry). -/
def sfSet (m : SFMap) (k : String) (v : Except String Resp) : SFMap :=
  (k, v) :: m.filter fun e => e.1 ≠ k

/-- `inflight.delete(key)`. -/
def sfDelete (m : SFMap) (k : String) : SFMap :=
  m.filter fun e => e.1 ≠ k

/-- Registry plus the number of producer invocations made so far. -/
structure SFState where
  map : SFMap
  invocations : Nat

/-- One caller arriving at `singleFlight(key, fn)` while the producer has
not yet completed: if the key is pending it just attaches to the existing
promise; otherwise it invokes the producer (whose eventual outcome is
`outcome`) and registers the pending promise. -/
def sfArrive (key : String) (outcome : Except String Resp) (st : SFState) :
    SFState :=
  if sfHas st.map key then st
  else ⟨sfSet st.map key outcome, st.invocations + 1⟩

/-- `n` callers arriving in sequence, all before the producer completes. -/
def sfArrivals (key : String) (outcome : Except String Resp) (n : Nat)
    (st : SFState) : SFState :=
  match n with
  | 0 => st
  | m + 1 => sfArrivals key outcome m (sfArrive key outcome st)

/-- A cloned response: `x.clone()` yields a fresh object (distinct
`copyId`) with the same payload. -/
structure RespCopy where
  value : Resp
  copyId : Nat

/-- What caller `i` receives when the shared promise settles: a fresh clone
of the fulfilment value, or the rejection passed through. -/
def cloneOutcome (o : Except String Resp) (i : Nat) : Except String RespCopy :=
  o.map fun v => ⟨v, i⟩

/-- A complete single-flight episode. -/
structure SFTrace where
  invocations : Nat
  results : List (Except String RespCopy)
  finalMap : SFMap

/-- Run one single-flight episode: starting from registry `m0`, `n`
concurrent callers ask for `key`; the producer's eventual outcome is
`outcome`.  After all arrivals the shared promise settles, each caller
receives its clone, and the leader's `finally` deletes the entry (when the
leader belongs to this episode). -/
def sfRun (m0 : SFMap) (key : String) (n : Nat)
    (outcome : Except String Resp) : SFTrace :=
  if n = 0 then ⟨0, [], m0⟩
  else
    let st := sfArrivals key outcome n ⟨m0, 0⟩
    let pending := (sfGet st.map key).getD outcome
    ⟨st.invocations,
     (List.range n).map (cloneOutcome pending),
     if sfHas m0 key then st.map else sfDelete st.map key⟩

/-! ## Concrete example data -/

/-- A representative clean provider payload. -/
def goodBody : Json := Json.obj [("Symbol", Json.str "IBM")]

/-- A provider body carrying an embedded throttle notice. -/
def noteBody : Json :=
  Json.obj [("Note", Json.str "Thank you for using Alpha Vantage! 25 requests per day.")]

/-- A provider body whose `Note` field is present but falsy (empty). -/
def emptyNoteBody : Json := Json.obj [("Note", Json.str "")]

/-- A provider body reporting bad input. -/
def errBody : Json :=
  Json.obj [("Error Message", Json.str "Invalid API call")]

def goodUp : Upstream := ⟨200, "", some goodBody⟩

def noteUp : Upstream := ⟨200, "", some noteBody⟩

def emptyNoteUp : Upstream := ⟨200, "", some emptyNoteBody⟩

def errUp : Upstream := ⟨200, "", some errBody⟩

/-- An unreachable upstream: HTTP 500 with an unparseable body. -/
def badUp : Upstream := ⟨500, "<html>oops", none⟩

def cleanRound : Round := ⟨goodUp, goodUp, goodUp, goodUp⟩

def throttledRound : Round := ⟨noteUp, goodUp, goodUp, goodUp⟩

def exEnv : Env := ⟨some "demo-key"⟩

def exEnvNoKey : Env := ⟨none⟩

def netAllGood : Net := ⟨goodUp, goodUp, cleanRound, cleanRound, 0, 0⟩

def netBadUpstream : Net := ⟨badUp, goodUp, cleanRound, cleanRound, 0, 0⟩

def netRetrySucceeds : Net := ⟨noteUp, goodUp, throttledRound, cleanRound, 7, 7⟩

/-! ## Helper lemmas -/

theorem finalizeAttempt_nocache_put (u : Upstream) (pb : Option Problem)
    (fn symbol origin : String) (ttl : Nat) :
    (finalizeAttempt u pb fn symbol origin true ttl).2 = none := by
  unfold finalizeAttempt
  split <;> rfl

theorem singleProducer_nocache_put (fn symbol origin : String) (ttl : Nat)
    (a1 a2 : Upstream) (r : Nat) :
    (singleProducer fn symbol origin true ttl a1 a2 r).put = none := by
  unfold singleProducer
  cases avProblem a1.data a1.status <;>
    simp [finalizeAttempt_nocache_put]

theorem bundleProducer_nocache_put (symbol origin : String) (r1 r2 : Round)
    (r : Nat) :
    (bundleProducer symbol origin true r1 r2 r).put = none := by
  unfold bundleProducer
  dsimp only
  split <;> split <;> rfl

theorem singleMode_nocache (fn symbol origin : String) (c : Cache) (net : Net) :
    singleMode fn symbol origin true c net
      = ((singleProducer fn symbol origin true (ttlFor fn) net.s1 net.s2 net.rs).resp, c) := by
  unfold singleMode
  dsimp only
  rw [singleProducer_nocache_put]
  rfl

theorem bundleMode_nocache (symbol origin : String) (c : Cache) (net : Net) :
    bundleMode symbol origin true c net
      = ((bundleProducer symbol origin true net.b1 net.b2 net.rb).resp, c) := by
  unfold bundleMode
  dsimp only
  rw [bundleProducer_nocache_put]
  rfl

/-- A JSON value that is not object-like has no fields at all. -/
theorem truthyField_of_not_objectLike (j : Json) (h : j.isObjectLike = false)
    (s : String) : truthyField j s = false := by
  cases j <;> simp_all [Json.isObjectLike, truthyField, Json.get]

/-- A body that `avProblem` leaves unclassified has no truthy `Note` or
`Information` field. -/
theorem avProblem_none_fields (j : Json) (status : Nat)
    (h : avProblem (some j) status = none) :
    truthyField j "Note" = false ∧ truthyField j "Information" = false := by
  by_cases hobj : j.isObjectLike = true
  · simp only [avProblem] at h
    rw [hobj] at h
    simp only [Bool.not_true, Bool.false_eq_true, if_false] at h
    split_ifs at h with h429 hN hI hE
    · exact ⟨by simpa using hN, by simpa using hI⟩
  · have hf : j.isObjectLike = false := by simpa using hobj
    exact ⟨truthyField_of_not_objectLike j hf _, truthyField_of_not_objectLike j hf _⟩

/-- A cache write performed by `finalizeAttempt` always stores the final
attempt's parsed data, which `avProblem` classified as clean; in particular
that data carries no truthy throttle-notice field. -/
theorem finalizeAttempt_put_clean (u : Upstream) (pb : Option Problem)
    (fn symbol origin : String) (nc : Bool) (ttl : Nat) (k : String) (v : Resp)
    (hpb : pb = avProblem u.data u.status)
    (h : (finalizeAttempt u pb fn symbol origin nc ttl).2 = some (k, v)) :
    truthyField v.body "Note" = false ∧ truthyField v.body "Information" = false := by
  unfold finalizeAttempt at h
  by_cases hcond : (u.ok && pb.isNone && dataTruthy u.data) = true
  · rw [if_pos hcond] at h
    cases nc with
    | true => simp at h
    | false =>
        simp only [Bool.false_eq_true, if_false, Option.some.injEq, Prod.mk.injEq] at h
        obtain ⟨-, hv⟩ := h
        obtain ⟨⟨hok, hnone⟩, htruthy⟩ :
            (u.ok = true ∧ pb = none) ∧ dataTruthy u.data = true := by
          simpa [Bool.and_eq_true, Option.isNone_iff_eq_none] using hcond
        obtain ⟨j, hj⟩ : ∃ j, u.data = some j := by
          cases hd : u.data with
          | none => rw [hd] at htruthy; simp [dataTruthy] at htruthy
          | some j => exact ⟨j, rfl⟩
        have hbody : v.body = j := by
          rw [← hv]; simp [wrapOk, hj]
        have hclass : avProblem (some j) u.status = none := by
          rw [← hj, ← hpb, hnone]
        rw [hbody]
        exact avProblem_none_fields j u.status hclass
  · rw [if_neg hcond] at h
    simp at h

/-- `cloneOutcome` preserves the shared payload. -/
theorem cloneOutcome_value (o : Except String Resp) (i : Nat) :
    (cloneOutcome o i).map RespCopy.value = o := by
  cases o <;> rfl

theorem sfHas_sfSet (m : SFMap) (k : String) (v : Except String Resp) :
    sfHas (sfSet m k v) k = true := by
  simp [sfHas, sfSet, List.lookup]

theorem sfGet_sfSet (m : SFMap) (k : String) (v : Except String Resp) :
    sfGet (sfSet m k v) k = some v := by
  simp [sfGet, sfSet, List.lookup]

theorem lookup_filter_ne {β : Type} (k : String) (m : List (String × β)) :
    List.lookup k (m.filter fun e => e.1 ≠ k) = none := by
  induction m with
  | nil => rfl
  | cons a t ih =>
      rw [List.filter_cons]
      by_cases h : a.1 = k
      · rw [if_neg (by simp [h])]
        exact ih
      · rw [if_pos (by simp [h])]
        have hbeq : (k == a.1) = false := beq_eq_false_iff_ne.mpr (Ne.symm h)
        rw [show a = (a.1, a.2) from rfl, List.lookup, hbeq]
        exact ih

theorem sfHas_sfDelete (m : SFMap) (k : String) :
    sfHas (sfDelete m k) k = false := by
  unfold sfHas sfDelete
  rw [lookup_filter_ne]
  rfl

/-- Once the key is pending, further arrivals change nothing (in
particular they never invoke the producer again). -/
theorem sfArrivals_of_pending (key : String) (o : Except String Resp)
    (n : Nat) (st : SFState) (h : sfHas st.map key = true) :
    sfArrivals key o n st = st := by
  induction n with
  | zero => rfl
  | succ m ih => simp [sfArrivals, sfArrive, h, ih]

/-- With the key initially free, the whole arrival sequence registers the
leader's promise and counts exactly one invocation. -/
theorem sfArrivals_of_free (key : String) (o : Except String Resp)
    (m : Nat) (m0 : SFMap) (hfree : sfHas m0 key = false) :
    sfArrivals key o (m + 1) ⟨m0, 0⟩ = ⟨sfSet m0 key o, 1⟩ := by
  have h1 : sfArrive key o ⟨m0, 0⟩ = ⟨sfSet m0 key o, 1⟩ := by
    simp [sfArrive, hfree]
  show sfArrivals key o m (sfArrive key o ⟨m0, 0⟩) = _
  rw [h1]
  exact sfArrivals_of_pending key o m _ (sfHas_sfSet m0 key o)

/-! ## Claim theorems -/

/-- C7 counterexample: an upstream HTTP 429 whose body is absent
(unparseable) or not an object is NOT classified at all — the
object guard in `avProblem` precedes the status-code rule, so the claim's
"regardless of the body, including a body that fails to parse" is false. -/
theorem c7_counterexample :
    avProblem none 429 = none
    ∧ avProblem (some (Json.str "rate limit exceeded")) 429 = none :=
  ⟨rfl, rfl⟩

/-- C7 (amended): for an upstream response with HTTP status 429 whose body
parsed to an object-like value, the classifier yields `rate_limited`
(status 429, kind "429") regardless of the body's fields — the status-code
rule precedes all field checks. -/
theorem c7_status_429_classified (d : Json) (status : Nat)
    (hobj : d.isObjectLike = true) (hs : status = 429) :
    avProblem (some d) status = some ⟨429, Json.str "rate_limited", "429"⟩ := by
  subst hs
  simp only [avProblem]
  rw [hobj]
  rfl

/-- C7 witness: a 429 whose body reports a provider error is still
classified by the status-code rule, not the error-field rule. -/
theorem c7_status_429_classified_witness :
    avProblem (some errBody) 429 = some ⟨429, Json.str "rate_limited", "429"⟩ :=
  c7_status_429_classified errBody 429 rfl rfl

/-- C6 counterexample: a 200 response whose body contains a `Note` field
holding a falsy value (the empty string) is classified as no problem —
success — and the per-function path caches it, contradicting the claim
that any body containing a note field is `rate_limited` and never
cached. -/
theorem c6_counterexample :
    avProblem (some emptyNoteBody) 200 = none
    ∧ (singleProducer "OVERVIEW" "IBM" "https://app" false (ttlFor "OVERVIEW")
        emptyNoteUp emptyNoteUp 0).put.isSome = true :=
  ⟨rfl, rfl⟩

/-- C6 (amended): for every upstream response whose parsed body is
object-like and whose `Note` or `Information` field holds a truthy value,
the classifier yields a problem with status 429 (never success); and the
per-function path never writes a body with a truthy `Note` or
`Information` field to the cache. -/
theorem c6_throttle_notice_rate_limited_never_cached (d : Json) (status : Nat)
    (hobj : d.isObjectLike = true)
    (hf : truthyField d "Note" = true ∨ truthyField d "Information" = true) :
    (∃ pr, avProblem (some d) status = some pr ∧ pr.status = 429)
    ∧ (∀ (fn symbol origin : String) (nc : Bool) (ttl : Nat)
        (a1 a2 : Upstream) (r : Nat) (k : String) (v : Resp),
        (singleProducer fn symbol origin nc ttl a1 a2 r).put = some (k, v) →
        truthyField v.body "Note" = false
          ∧ truthyField v.body "Information" = false) := by
  constructor
  · simp only [avProblem]
    rw [hobj]
    simp only [Bool.not_true, Bool.false_eq_true, if_false]
    by_cases h429 : status = 429
    · exact ⟨_, by rw [if_pos h429], rfl⟩
    · rw [if_neg h429]
      by_cases hN : truthyField d "Note" = true
      · exact ⟨_, by rw [if_pos hN], rfl⟩
      · rcases hf with hfN | hfI
        · exact absurd hfN hN
        · rw [if_neg hN, if_pos hfI]
          exact ⟨_, rfl, rfl⟩
  · intro fn symbol origin nc ttl a1 a2 r k v h
    unfold singleProducer at h
    cases hp : avProblem a1.data a1.status with
    | none =>
        rw [hp] at h
        exact finalizeAttempt_put_clean a1 none fn symbol origin nc ttl k v hp.symm h
    | some pr =>
        rw [hp] at h
        exact finalizeAttempt_put_clean a2 (avProblem a2.data a2.status)
          fn symbol origin nc ttl k v rfl h

/-- C6 witness: a 200 response carrying a non-empty `Note` throttle notice
is classified with status 429, and a concrete cache write performed by the
producer never stores such a body. -/
theorem c6_throttle_notice_witness :
    (∃ pr, avProblem (some noteBody) 200 = some pr ∧ pr.status = 429)
    ∧ truthyField goodBody "Note" = false :=
  ⟨(c6_throttle_notice_rate_limited_never_cached noteBody 200 rfl (Or.inl rfl)).1,
   ((c6_throttle_notice_rate_limited_never_cached noteBody 200 rfl (Or.inl rfl)).2
      "OVERVIEW" "IBM" "https://app" false (ttlFor "OVERVIEW") goodUp goodUp 0
      (cacheKeyStr ["OVERVIEW", "IBM"])
      (wrapOk goodBody (ttlFor "OVERVIEW") "https://app" [("x-proxy-cache", "MISS")])
      rfl).1⟩

/-- C5 counterexample: a first attempt classified as `bad_request`
(provider `Error Message`, not `rate_limited`) still triggers the second
attempt — the code retries on every classified problem, not only on
`rate_limited`. -/
theorem c5_counterexample :
    avProblem errUp.data errUp.status
      = some ⟨400, Json.str "Invalid API call", "error"⟩
    ∧ (singleProducer "OVERVIEW" "IBM" "https://app" false (ttlFor "OVERVIEW")
        errUp goodUp 0).attempts = 2 :=
  ⟨rfl, rfl⟩

/-- C5 (amended): the per-function retry policy executes the upstream
attempt once; a second attempt is made exactly when the first attempt's
classified problem is non-null (rate_limited OR bad_request), after a
random delay of 1000-1499 ms (within the claimed 1.0-1.8 s window); the
second attempt's outcome is surfaced as-is, and no request makes more than
two attempts. -/
theorem c5_retry_policy (fn symbol origin : String) (nc : Bool) (ttl : Nat)
    (a1 a2 : Upstream) (r : Nat) :
    (singleProducer fn symbol origin nc ttl a1 a2 r).attempts ≤ 2
    ∧ ((singleProducer fn symbol origin nc ttl a1 a2 r).attempts = 2
        ↔ (avProblem a1.data a1.status).isSome = true)
    ∧ (∀ d, (singleProducer fn symbol origin nc ttl a1 a2 r).waitedMs = some d →
        1000 ≤ d ∧ d ≤ 1499)
    ∧ ((avProblem a1.data a1.status).isSome = true →
        (singleProducer fn symbol origin nc ttl a1 a2 r).resp
          = (finalizeAttempt a2 (avProblem a2.data a2.status)
              fn symbol origin nc ttl).1
        ∧ (singleProducer fn symbol origin nc ttl a1 a2 r).put
          = (finalizeAttempt a2 (avProblem a2.data a2.status)
              fn symbol origin nc ttl).2) := by
  cases hp : avProblem a1.data a1.status with
  | none =>
      refine ⟨?_, ?_, ?_, ?_⟩ <;> simp [singleProducer, hp]
  | some pr =>
      refine ⟨by simp [singleProducer, hp], by simp [singleProducer, hp], ?_,
        by simp [singleProducer, hp]⟩
      intro d hd
      simp [singleProducer, hp] at hd
      omega

/-- C5 witness: with a throttled first attempt and random draw 7, the
producer makes the second attempt after a 1007 ms delay, inside the
claimed window. -/
theorem c5_retry_policy_witness :
    (singleProducer "OVERVIEW" "IBM" "https://app" false (ttlFor "OVERVIEW")
       noteUp goodUp 7).attempts = 2
    ∧ (1000 ≤ 1007 ∧ 1007 ≤ 1499) :=
  ⟨(c5_retry_policy "OVERVIEW" "IBM" "https://app" false (ttlFor "OVERVIEW")
      noteUp goodUp 7).2.1.mpr rfl,
   (c5_retry_policy "OVERVIEW" "IBM" "https://app" false (ttlFor "OVERVIEW")
      noteUp goodUp 7).2.2.1 1007 rfl⟩

/-- C8 counterexample: a provider `Error Message` response (HTTP 200 body
with an error field) IS retried (two attempts) and the final response has
HTTP status 429, not 400. -/
theorem c8_counterexample :
    (singleProducer "OVERVIEW" "IBM" "https://app" false (ttlFor "OVERVIEW")
       errUp errUp 0).attempts = 2
    ∧ (singleProducer "OVERVIEW" "IBM" "https://app" false (ttlFor "OVERVIEW")
       errUp errUp 0).resp.status = 429
    ∧ ¬ (singleProducer "OVERVIEW" "IBM" "https://app" false (ttlFor "OVERVIEW")
       errUp errUp 0).resp.status = 400 := by
  refine ⟨rfl, rfl, ?_⟩
  intro h
  rw [show (singleProducer "OVERVIEW" "IBM" "https://app" false
    (ttlFor "OVERVIEW") errUp errUp 0).resp.status = 429 from rfl] at h
  exact absurd h (by norm_num)

/-- C8 (amended): a body whose `Error Message` field is truthy (with no
429 status and no truthy throttle field) is classified as the error kind
with suggested status 400, but the final-revision producer retries it once
like any problem, and when the second attempt is also classified as a
problem the surfaced response has HTTP status 429 (via `wrap429`, which
ignores the problem's 400) and performs no cache write. -/
theorem c8_provider_error_retried_as_429 (d : Json) (status : Nat)
    (txt : String) (fn symbol origin : String) (nc : Bool) (ttl : Nat)
    (a2 : Upstream) (r : Nat)
    (hobj : d.isObjectLike = true) (hs : ¬ status = 429)
    (hN : truthyField d "Note" = false) (hI : truthyField d "Information" = false)
    (hE : truthyField d "Error Message" = true)
    (h2 : (avProblem a2.data a2.status).isSome = true) :
    avProblem (some d) status = some ⟨400, fieldOr d "Error Message", "error"⟩
    ∧ (singleProducer fn symbol origin nc ttl ⟨status, txt, some d⟩ a2 r).attempts = 2
    ∧ (singleProducer fn symbol origin nc ttl ⟨status, txt, some d⟩ a2 r).resp.status = 429
    ∧ (singleProducer fn symbol origin nc ttl ⟨status, txt, some d⟩ a2 r).put = none := by
  have hclass : avProblem (some d) status
      = some ⟨400, fieldOr d "Error Message", "error"⟩ := by
    simp only [avProblem]
    rw [hobj]
    simp only [Bool.not_true, Bool.false_eq_true, if_false]
    rw [if_neg hs, hN, hI]
    simp only [Bool.false_eq_true, if_false]
    rw [if_pos hE]
  have hfin : (finalizeAttempt a2 (avProblem a2.data a2.status)
      fn symbol origin nc ttl)
      = (wrap429
          (match avProblem a2.data a2.status with
            | some pr => pr.msg
            | none => Json.str ("Upstream " ++ toString a2.status))
          origin
          (match avProblem a2.data a2.status with
            | some pr => pr.kind
            | none => "upstream"), none) := by
    unfold finalizeAttempt
    rw [if_neg ?hc]
    case hc =>
      intro hcontra
      obtain ⟨⟨-, hnone⟩, -⟩ :
          (a2.ok = true ∧ (avProblem a2.data a2.status).isNone = true)
            ∧ dataTruthy a2.data = true := by
        simpa [Bool.and_eq_true] using hcontra
      rw [Option.isNone_iff_eq_none] at hnone
      rw [hnone] at h2
      simp at h2
  refine ⟨hclass, ?_, ?_, ?_⟩ <;> simp [singleProducer, hclass, hfin, wrap429, json]

/-- C8 witness: two consecutive provider-error attempts yield the
classification, two attempts, a 429 response and no cache write. -/
theorem c8_provider_error_witness :
    avProblem (some errBody) 200
      = some ⟨400, fieldOr errBody "Error Message", "error"⟩
    ∧ (singleProducer "OVERVIEW" "IBM" "https://app" false (ttlFor "OVERVIEW")
        errUp errUp 5).attempts = 2
    ∧ (singleProducer "OVERVIEW" "IBM" "https://app" false (ttlFor "OVERVIEW")
        errUp errUp 5).resp.status = 429
    ∧ (singleProducer "OVERVIEW" "IBM" "https://app" false (ttlFor "OVERVIEW")
        errUp errUp 5).put = none :=
  c8_provider_error_retried_as_429 errBody 200 "" "OVERVIEW" "IBM" "https://app"
    false (ttlFor "OVERVIEW") errUp 5 rfl (by norm_num) rfl rfl rfl rfl

/-- Parameters of a plain single-statement request (no bundle, no
nocache). -/
def pSingle : Params := ⟨"https://app", some "OVERVIEW", none, some "IBM", none⟩

/-- C2 counterexample: a single-statement request whose upstream fetch
returns HTTP 500 with an unparseable body is answered with HTTP 429 (the
final revision routes every failure through `wrap429`), not 502. -/
theorem c2_counterexample :
    (onRequestGet pSingle exEnv [] netBadUpstream).1.status = 429
    ∧ ¬ (onRequestGet pSingle exEnv [] netBadUpstream).1.status = 502 := by
  refine ⟨rfl, ?_⟩
  intro h
  rw [show (onRequestGet pSingle exEnv [] netBadUpstream).1.status = 429
    from rfl] at h
  exact absurd h (by norm_num)

/-- C2 (amended): for every single-statement request (cache miss) whose
first upstream attempt yields no classified problem but is not clean
(non-2xx status, or a body that failed to parse), the response is the
generic `wrap429` failure — HTTP 429, kind "upstream", detail
`Upstream <status>` — and nothing is cached; the dedicated 502 branch of
the earlier revision no longer exists. -/
theorem c2_upstream_failure_yields_429 (fn symbol origin : String)
    (nc : Bool) (c : Cache) (net : Net)
    (hm : cacheMatch c (cacheKeyStr [fn, symbol]) = none)
    (h1 : avProblem net.s1.data net.s1.status = none)
    (h2 : net.s1.ok = false ∨ net.s1.data = none) :
    (singleMode fn symbol origin nc c net).1
      = wrap429 (Json.str ("Upstream " ++ toString net.s1.status)) origin "upstream"
    ∧ (singleMode fn symbol origin nc c net).1.status = 429
    ∧ (singleMode fn symbol origin nc c net).2 = c := by
  have hnotclean : (net.s1.ok && (none : Option Problem).isNone
      && dataTruthy net.s1.data) = false := by
    rcases h2 with hok | hdata
    · simp [hok]
    · simp [hdata, dataTruthy]
  have hfin : finalizeAttempt net.s1 none fn symbol origin nc (ttlFor fn)
      = (wrap429 (Json.str ("Upstream " ++ toString net.s1.status))
          origin "upstream", none) := by
    unfold finalizeAttempt
    rw [hnotclean]
    rfl
  have hprod : singleProducer fn symbol origin nc (ttlFor fn) net.s1 net.s2 net.rs
      = ⟨wrap429 (Json.str ("Upstream " ++ toString net.s1.status))
          origin "upstream", none, 1, none⟩ := by
    unfold singleProducer
    rw [h1, hfin]
  have hscrut : (if nc then none else cacheMatch c (cacheKeyStr [fn, symbol]))
      = (none : Option Resp) := by
    cases nc <;> simp [hm]
  unfold singleMode
  dsimp only
  rw [hscrut, hprod]
  exact ⟨rfl, rfl, rfl⟩

/-- C2 witness: the unreachable-upstream scenario at concrete inputs. -/
theorem c2_upstream_failure_witness :
    (singleMode "OVERVIEW" "IBM" "https://app" false [] netBadUpstream).1
      = wrap429 (Json.str "Upstream 500") "https://app" "upstream"
    ∧ (singleMode "OVERVIEW" "IBM" "https://app" false [] netBadUpstream).1.status = 429
    ∧ (singleMode "OVERVIEW" "IBM" "https://app" false [] netBadUpstream).2 = [] :=
  c2_upstream_failure_yields_429 "OVERVIEW" "IBM" "https://app" false []
    netBadUpstream rfl rfl (Or.inl rfl)

/-- Parameters of a bundle request with the cache-bypass flag set. -/
def pBundleNocache : Params := ⟨"https://app", none, some "1", some "IBM", some "1"⟩

/-- C3 counterexample: a bundle request with `nocache=1` whose four legs
are all clean succeeds (HTTP 200) yet performs NO cache write — the cache
write on bundle success is guarded by `if (!nocache)`, so "success implies
the four-leg object is written" fails. -/
theorem c3_counterexample :
    (onRequestGet pBundleNocache exEnv [] netAllGood).1.status = 200
    ∧ (onRequestGet pBundleNocache exEnv [] netAllGood).2 = [] :=
  ⟨rfl, rfl⟩

/-- C3 (amended): the bundle attempt succeeds (HTTP 200) iff every leg of
the final round (the second round exactly when some first-round leg
classified as a problem) is clean; on success with the cache-bypass flag
unset the assembled bundle is written to the bundle key; when any final
leg is unclean the response is the 429 `wrap429` bundle failure and no
cache write is performed. -/
theorem c3_bundle_all_or_nothing (symbol origin : String) (nc : Bool)
    (r1 r2 : Round) (r : Nat) :
    ((bundleProducer symbol origin nc r1 r2 r).resp.status = 200
      ↔ (if r1.toList.any legProblem then r2 else r1).toList.all legClean = true)
    ∧ ((if r1.toList.any legProblem then r2 else r1).toList.all legClean = true →
        nc = false →
        (bundleProducer symbol origin nc r1 r2 r).put
          = some (cacheKeyStr ["BUNDLE", symbol],
              (bundleProducer symbol origin nc r1 r2 r).resp))
    ∧ ((if r1.toList.any legProblem then r2 else r1).toList.all legClean = false →
        (bundleProducer symbol origin nc r1 r2 r).resp
          = wrap429 (Json.str "Bundle throttled and no cached copy") origin "bundle"
        ∧ (bundleProducer symbol origin nc r1 r2 r).put = none) := by
  unfold bundleProducer
  dsimp only
  by_cases ht : r1.toList.any legProblem = true
  · rw [if_pos ht]
    by_cases hall : r2.toList.all legClean = true
    · rw [if_pos hall]
      refine ⟨by simp [wrapOk, hall], fun _ hnc => ?_,
        fun hfalse => absurd (hall.symm.trans hfalse) (by simp)⟩
      rw [hnc]
      rfl
    · rw [if_neg hall]
      exact ⟨by simp [wrap429, json, hall], fun htrue _ => absurd htrue hall,
        fun _ => ⟨rfl, rfl⟩⟩
  · rw [if_neg ht]
    by_cases hall : r1.toList.all legClean = true
    · rw [if_pos hall]
      refine ⟨by simp [wrapOk, hall], fun _ hnc => ?_,
        fun hfalse => absurd (hall.symm.trans hfalse) (by simp)⟩
      rw [hnc]
      rfl
    · rw [if_neg hall]
      exact ⟨by simp [wrap429, json, hall], fun htrue _ => absurd htrue hall,
        fun _ => ⟨rfl, rfl⟩⟩

/-- C3 witness: the spec's positive bundle scenario — one leg throttled in
round one, all four clean after the shared retry — succeeds and is cached
as one unit under the bundle key. -/
theorem c3_bundle_witness :
    (bundleProducer "IBM" "https://app" false throttledRound cleanRound 7).resp.status = 200
    ∧ (bundleProducer "IBM" "https://app" false throttledRound cleanRound 7).put
        = some (cacheKeyStr ["BUNDLE", "IBM"],
            (bundleProducer "IBM" "https://app" false throttledRound cleanRound 7).resp) :=
  ⟨(c3_bundle_all_or_nothing "IBM" "https://app" false throttledRound cleanRound 7).1.mpr rfl,
   (c3_bundle_all_or_nothing "IBM" "https://app" false throttledRound cleanRound 7).2.1 rfl rfl⟩

/-- Parameters of a single-statement request with the cache-bypass flag
set. -/
def pNocache : Params := ⟨"https://app", some "OVERVIEW", none, some "ibm", some "1"⟩

/-- A cache holding a fresh entry for the OVERVIEW/IBM key. -/
def cPrior : Cache :=
  [(cacheKeyStr ["OVERVIEW", "IBM"], json goodBody 200 "https://app" [])]

/-- C1 counterexample: a `nocache=1` request whose upstream fetch succeeds
(HTTP 200 response served) leaves the cache without any entry for the
key — the cache write is also skipped, so a subsequent normal read cannot
observe a refreshed entry. -/
theorem c1_counterexample :
    (onRequestGet pNocache exEnv [] netAllGood).1.status = 200
    ∧ cacheMatch (onRequestGet pNocache exEnv [] netAllGood).2
        (cacheKeyStr ["OVERVIEW", "IBM"]) = none :=
  ⟨rfl, rfl⟩

/-- C1 (amended): a request with the cache-bypass flag set skips BOTH the
cache read and the cache write, on every path: the final cache equals the
initial cache, and the response does not depend on the cache contents at
all. -/
theorem c1_nocache_bypasses_read_and_write (p : Params) (env : Env)
    (c c2c : Cache) (net : Net) (hn : p.nocache? = some "1") :
    (onRequestGet p env c net).2 = c
    ∧ (onRequestGet p env c net).1 = (onRequestGet p env c2c net).1 := by
  unfold onRequestGet
  rw [hn]
  simp only [beq_self_eq_true]
  constructor
  · split
    · rfl
    · split
      · rfl
      · split
        · rw [bundleMode_nocache]
        · split
          · rfl
          · rw [singleMode_nocache]
  · split
    · rfl
    · split
      · rfl
      · split
        · rw [bundleMode_nocache, bundleMode_nocache]
        · split
          · rfl
          · rw [singleMode_nocache, singleMode_nocache]

/-- C1 witness: even with a fresh cached entry for the key, a `nocache=1`
request leaves the cache untouched and responds exactly as it would on an
empty cache. -/
theorem c1_nocache_witness :
    (onRequestGet pNocache exEnv cPrior netAllGood).2 = cPrior
    ∧ (onRequestGet pNocache exEnv cPrior netAllGood).1
        = (onRequestGet pNocache exEnv [] netAllGood).1 :=
  c1_nocache_bypasses_read_and_write pNocache exEnv cPrior [] netAllGood rfl

/-- C10: when the upstream credential is absent (or empty), the handler
responds 500 before any input validation, for every request — including
malformed ones — and touches nothing. -/
theorem c10_credential_check_precedes_validation (p : Params) (env : Env)
    (c : Cache) (net : Net) (hk : envHasKey env = false) :
    (onRequestGet p env c net).1.status = 500
    ∧ (onRequestGet p env c net).2 = c := by
  unfold onRequestGet
  rw [hk]
  exact ⟨rfl, rfl⟩

/-- Parameters with no symbol at all (also an invalid function would not
matter). -/
def pMissingSymbol : Params := ⟨"https://app", some "OVERVIEW", none, none, none⟩

/-- C10 witness: a request that is ALSO malformed (missing symbol) still
gets 500, not 400, when the credential is missing. -/
theorem c10_credential_witness :
    (onRequestGet pMissingSymbol exEnvNoKey [] netAllGood).1.status = 500 :=
  (c10_credential_check_precedes_validation pMissingSymbol exEnvNoKey []
    netAllGood rfl).1

/-- C9: with the credential configured (the precondition made explicit by
the credential-first check), (1) a request whose symbol is absent or empty
is answered 400 whatever the other parameters; (2) a request with
`bundle=1` and a symbol takes the bundle path irrespective of the
`function` parameter (the bundle path does not consult it); (3) a request
without `bundle=1` whose uppercased `function` is not one of the four
known kinds is answered 400. -/
theorem c9_router_validation (p : Params) (env : Env) (c : Cache) (net : Net)
    (hk : envHasKey env = true) :
    ((p.symbol? = none ∨ p.symbol? = some "") →
      (onRequestGet p env c net).1.status = 400)
    ∧ (p.bundle? = some "1" → ¬ jsToUpper (p.symbol?.getD "") = "" →
        onRequestGet p env c net
          = bundleMode (jsToUpper (p.symbol?.getD "")) p.origin
              (p.nocache? == some "1") c net)
    ∧ (¬ p.bundle? = some "1" → ¬ jsToUpper (p.symbol?.getD "") = "" →
        ALLOWED.contains (jsToUpper (p.fn?.getD "")) = false →
        (onRequestGet p env c net).1.status = 400) := by
  have hkey : (!(envHasKey env)) = false := by rw [hk]; rfl
  refine ⟨?_, ?_, ?_⟩
  · intro hsym
    have hs : jsToUpper (p.symbol?.getD "") = "" := by
      rcases hsym with h | h <;> rw [h] <;> rfl
    unfold onRequestGet
    rw [hkey, hs]
    rfl
  · intro hb hsym
    have hsbeq : (jsToUpper (p.symbol?.getD "") == "") = false :=
      beq_eq_false_iff_ne.mpr hsym
    unfold onRequestGet
    dsimp only
    rw [hkey, hsbeq, hb]
    rfl
  · intro hb hsym hfn
    have hsbeq : (jsToUpper (p.symbol?.getD "") == "") = false :=
      beq_eq_false_iff_ne.mpr hsym
    have hbbeq : (p.bundle? == some "1") = false :=
      beq_eq_false_iff_ne.mpr hb
    unfold onRequestGet
    dsimp only
    rw [hkey, hsbeq, hbbeq, hfn]
    simp only [Bool.or_true, if_true, Bool.false_eq_true, if_false, Bool.not_false]
    rfl

/-- Parameters for a bundle request carrying an unknown `function` value. -/
def pBundleAnyFn : Params :=
  ⟨"https://app", some "NOT_A_FUNCTION", some "1", some "IBM", none⟩

/-- Parameters for a non-bundle request with an unrecognized `function`. -/
def pBadFn : Params := ⟨"https://app", some "DIVIDENDS", none, some "IBM", none⟩

/-- C9 witness: a missing symbol yields 400; `bundle=1` reaches the bundle
path even with an unknown `function`; an unknown `function` without
`bundle=1` yields 400. -/
theorem c9_router_validation_witness :
    (onRequestGet pMissingSymbol exEnv [] netAllGood).1.status = 400
    ∧ onRequestGet pBundleAnyFn exEnv [] netAllGood
        = bundleMode "IBM" "https://app" false [] netAllGood
    ∧ (onRequestGet pBadFn exEnv [] netAllGood).1.status = 400 :=
  ⟨(c9_router_validation pMissingSymbol exEnv [] netAllGood rfl).1 (Or.inl rfl),
   (c9_router_validation pBundleAnyFn exEnv [] netAllGood rfl).2.1 rfl
     (by intro h; exact absurd h (by decide)),
   (c9_router_validation pBadFn exEnv [] netAllGood rfl).2.2
     (by intro h; exact absurd h (by decide))
     (by intro h; exact absurd h (by decide)) rfl⟩

/-- C4: single-flight for `N ≥ 2` concurrent callers of one key within one
execution context, the key initially not pending: the producer is invoked
exactly once; every caller receives its own clone of the one shared
outcome (on fulfilment the `n` clones carry pairwise distinct copy ids and
identical payloads; a rejection propagates to every caller); and the
registry entry is removed unconditionally when the producer completes,
whether it succeeded or failed. -/
theorem c4_single_flight (m0 : SFMap) (key : String) (n : Nat)
    (outcome : Except String Resp) (hn : 2 ≤ n)
    (hfree : sfHas m0 key = false) :
    (sfRun m0 key n outcome).invocations = 1
    ∧ (sfRun m0 key n outcome).results.length = n
    ∧ (∀ res ∈ (sfRun m0 key n outcome).results,
        res.map RespCopy.value = outcome)
    ∧ (∀ v, outcome = Except.ok v →
        (sfRun m0 key n outcome).results
          = (List.range n).map fun i => Except.ok ⟨v, i⟩)
    ∧ sfHas (sfRun m0 key n outcome).finalMap key = false := by
  obtain ⟨m, rfl⟩ : ∃ m, n = m + 1 := ⟨n - 1, by omega⟩
  have hrun : sfRun m0 key (m + 1) outcome
      = ⟨1, (List.range (m + 1)).map (cloneOutcome outcome),
          sfDelete (sfSet m0 key outcome) key⟩ := by
    unfold sfRun
    rw [if_neg (by omega : ¬ m + 1 = 0)]
    dsimp only
    rw [sfArrivals_of_free key outcome m m0 hfree]
    rw [show sfHas m0 key = false from hfree]
    dsimp only
    rw [sfGet_sfSet]
    rfl
  rw [hrun]
  refine ⟨rfl, by simp, ?_, ?_, sfHas_sfDelete _ key⟩
  · intro res hres
    obtain ⟨i, -, hi⟩ := List.mem_map.mp hres
    rw [← hi]
    exact cloneOutcome_value outcome i
  · intro v hv
    subst hv
    rfl

/-- C4 witness: three concurrent callers for the per-function flight key,
fulfilled producer — one invocation, the key removed afterwards, and each
caller holding its own copy of the shared payload. -/
theorem c4_single_flight_witness :
    (sfRun [] (cacheKeyStr ["FETCH", "OVERVIEW", "IBM"]) 3
        (Except.ok (json goodBody 200 "https://app" []))).invocations = 1
    ∧ sfHas (sfRun [] (cacheKeyStr ["FETCH", "OVERVIEW", "IBM"]) 3
        (Except.ok (json goodBody 200 "https://app" []))).finalMap
        (cacheKeyStr ["FETCH", "OVERVIEW", "IBM"]) = false
    ∧ (sfRun [] (cacheKeyStr ["FETCH", "OVERVIEW", "IBM"]) 3
        (Except.ok (json goodBody 200 "https://app" []))).results
        = [Except.ok ⟨json goodBody 200 "https://app" [], 0⟩,
           Except.ok ⟨json goodBody 200 "https://app" [], 1⟩,
           Except.ok ⟨json goodBody 200 "https://app" [], 2⟩] :=
  ⟨(c4_single_flight [] (cacheKeyStr ["FETCH", "OVERVIEW", "IBM"]) 3
      (Except.ok (json goodBody 200 "https://app" [])) (by omega) rfl).1,
   (c4_single_flight [] (cacheKeyStr ["FETCH", "OVERVIEW", "IBM"]) 3
      (Except.ok (json goodBody 200 "https://app" [])) (by omega) rfl).2.2.2.2,
   ((c4_single_flight [] (cacheKeyStr ["FETCH", "OVERVIEW", "IBM"]) 3
      (Except.ok (json goodBody 200 "https://app" [])) (by omega) rfl).2.2.2.1
      (json goodBody 200 "https://app" []) rfl).trans rfl⟩

end RatiosProxy
